import Mathlib

/-!
Verification of the pacemaker `based` message handlers
(`src/daemons/based/based_messages.c`) against their natural-language
specification.

The handlers are embedded shallowly: the two process-wide mutable fields
(`based_is_primary`, `sync_in_progress`) and the shutdown flag become
explicit arguments and results; calls into external document-engine
primitives (`cib_process_diff`, `cib_process_replace`,
`cib_process_upgrade`, `update_validation`, the digest service, the
cluster transport) become oracle arguments carrying the value the
primitive would have returned; observable side effects (messages sent,
documents discarded, process termination) become boolean fields of the
result record. XML envelopes are modelled as partial maps from attribute
name to attribute value.
-/

/-! ## Status codes (from errno.h and crm/error.h) -/

def pcmk_ok : Int := 0

def EPERM : Int := 1

def EINVAL : Int := 22

def EPROTO : Int := 71

def ENOTCONN : Int := 107

def pcmk_err_schema_validation : Int := 203

def pcmk_err_diff_failed : Int := 206

def pcmk_err_diff_resync : Int := 207

def pcmk_err_schema_unchanged : Int := 208

/-! ## Wire constants used by the handlers -/

def PCMK__XA_T : String := "t"

def PCMK__XA_SRC : String := "src"

def PCMK__XA_CIB_CLIENTID : String := "cib_clientid"

def PCMK__XA_CIB_CALLOPT : String := "cib_callopt"

def PCMK__XA_CIB_CALLID : String := "cib_callid"

def PCMK__XA_CIB_OP : String := "cib_op"

def PCMK__XA_CIB_ISREPLYTO : String := "cib_isreplyto"

def PCMK__XA_CIB_SECTION : String := "cib_section"

def PCMK__XA_CIB_HOST : String := "cib_host"

def PCMK__XA_CIB_RC : String := "cib_rc"

def PCMK__XA_CIB_DELEGATED_FROM : String := "cib_delegated_from"

def PCMK__XA_CIB_OBJECT : String := "cib_object"

def PCMK__XA_CIB_OBJECT_TYPE : String := "cib_object_type"

def F_CIB_TIMEOUT : String := "cib_timeout"

def F_CIB_GLOBAL_UPDATE : String := "cib_update"

def PCMK__XA_CIB_CLIENTNAME : String := "cib_clientname"

def F_CIB_USER : String := "cib_user"

def F_CIB_NOTIFY_TYPE : String := "cib_notify_type"

def F_CIB_NOTIFY_ACTIVATE : String := "cib_notify_activate"

def PCMK_XA_CRM_FEATURE_SET : String := "crm_feature_set"

def PCMK__XA_DIGEST : String := "digest"

def PCMK__XA_ORIGINAL_CIB_OP : String := "original_cib_op"

def PCMK__CIB_REQUEST_REPLACE : String := "cib_replace"

def PCMK__CIB_REQUEST_SYNC_TO_ONE : String := "cib_sync_one"

def PCMK__CIB_REQUEST_IS_PRIMARY : String := "cib_ismaster"

def PCMK__CIB_REQUEST_PRIMARY : String := "cib_master"

def PCMK_VALUE_TRUE : String := "true"

def CRM_FEATURE_SET : String := "3.19.0"

/-- Maximum number of diffs to ignore while waiting for a resync
(`MAX_DIFF_RETRY` in based_messages.c). -/
def MAX_DIFF_RETRY : Nat := 5

/-! ## send_sync_request (based_messages.c lines 116-135) -/

/-- Observable effect of `send_sync_request`: the new value of
`sync_in_progress` and the sync-to-one envelope it sends (target `none`
means broadcast). -/
structure SyncRequestEffect where
  sync : Nat
  op : String
  target : Option String
  deriving Repr, DecidableEq

/-- Embedding of `send_sync_request`: sets `sync_in_progress` to 1 and
sends a sync-to-one request to the named peer, or to all peers when no
host is given. -/
def send_sync_request (host : Option String) : SyncRequestEffect :=
  { sync := 1
    op := PCMK__CIB_REQUEST_SYNC_TO_ONE
    target := host }

/-! ## cib_server_process_diff (based_messages.c lines 290-351) -/

/-- Observable outcome of one `cib_server_process_diff` call: the status
code returned, the new `sync_in_progress` value, whether the early
ignore-diff branch was taken, whether `cib_process_diff` was invoked,
whether a broadcast resync request was issued, and whether the partially
built `*result_cib` was discarded. -/
structure DiffOutcome where
  rc : Int
  sync : Nat
  ignored : Bool
  delegated : Bool
  resyncRequested : Bool
  resultDiscarded : Bool
  deriving Repr, DecidableEq

/-- Embedding of the post-delegation part of `cib_server_process_diff`
(lines 325-350): `diffRc` is the code returned by the external
`cib_process_diff` primitive, `s` the current `sync_in_progress`,
`legacy` the value of `cib_legacy_mode()`. -/
def cib_server_interpret_diff_result (primary legacy : Bool) (diffRc : Int)
    (s : Nat) : DiffOutcome :=
  if diffRc = -pcmk_err_diff_resync ∧ primary = false then
    { rc := diffRc
      sync := (send_sync_request none).sync
      ignored := false
      delegated := true
      resyncRequested := true
      resultDiscarded := true }
  else if diffRc = -pcmk_err_diff_resync then
    { rc := -pcmk_err_diff_failed
      sync := s
      ignored := false
      delegated := true
      resyncRequested := false
      resultDiscarded := false }
  else if diffRc ≠ pcmk_ok ∧ primary = false ∧ legacy = true then
    { rc := diffRc
      sync := (send_sync_request none).sync
      ignored := false
      delegated := true
      resyncRequested := true
      resultDiscarded := true }
  else
    { rc := diffRc
      sync := s
      ignored := false
      delegated := true
      resyncRequested := false
      resultDiscarded := false }

/-- Embedding of `cib_server_process_diff`: `s` is the incoming
`sync_in_progress` value, `primary` the incoming `based_is_primary`. -/
def cib_server_process_diff (primary : Bool) (s : Nat) (legacy : Bool)
    (diffRc : Int) : DiffOutcome :=
  let s1 := if MAX_DIFF_RETRY < s then 0 else s
  if s1 ≠ 0 ∧ primary = false then
    { rc := -pcmk_err_diff_resync
      sync := s1 + 1
      ignored := true
      delegated := false
      resyncRequested := false
      resultDiscarded := false }
  else
    cib_server_interpret_diff_result primary legacy diffRc s1

/-! ## cib_process_replace_svr (based_messages.c lines 353-365) -/

/-- Embedding of `cib_process_replace_svr`: `replaceRc` is the code
returned by the external `cib_process_replace` primitive and `whole`
says whether the input payload is a whole `<cib>` document
(`pcmk__xe_is(input, PCMK_XE_CIB)`). Returns the status code and the
new `sync_in_progress` value. -/
def cib_process_replace_svr (s : Nat) (replaceRc : Int) (whole : Bool) :
    Int × Nat :=
  (replaceRc, if replaceRc = pcmk_ok ∧ whole = true then 0 else s)

/-! ## The Resync State counter lifecycle -/

/-- The three operations of the source that touch `sync_in_progress`,
together with the oracle values that drive them. -/
inductive SyncOp where
  | sendSyncRequest (host : Option String)
  | serverProcessDiff (primary legacy : Bool) (diffRc : Int)
  | replaceSvr (replaceRc : Int) (whole : Bool)
  deriving Repr, DecidableEq

/-- New value of `sync_in_progress` after one operation, as the code
computes it. -/
def syncStep : SyncOp → Nat → Nat
  | SyncOp.sendSyncRequest host, _ => (send_sync_request host).sync
  | SyncOp.serverProcessDiff primary legacy diffRc, s =>
      (cib_server_process_diff primary s legacy diffRc).sync
  | SyncOp.replaceSvr replaceRc whole, s =>
      (cib_process_replace_svr s replaceRc whole).2

/-- The Resync State lifecycle exactly as the specification describes
it: the counter is set to 1 when a resync request is issued (directly,
or from inside diff handling when the diff-apply outcome demands a
resync per spec section 4.3), incremented when a diff is ignored while
a resync is outstanding on a secondary, reset to 0 by a successful
whole-document replacement, and reset to 0 once it exceeds the retry
ceiling 5, after which diffs are evaluated normally. -/
def resyncLifecycleSpec : SyncOp → Nat → Nat
  | SyncOp.sendSyncRequest _, _ => 1
  | SyncOp.serverProcessDiff primary legacy diffRc, s =>
      let s1 := if 5 < s then 0 else s
      if s1 ≠ 0 ∧ primary = false then
        s1 + 1
      else if (diffRc = -pcmk_err_diff_resync ∧ primary = false)
          ∨ (diffRc ≠ pcmk_ok ∧ diffRc ≠ -pcmk_err_diff_resync
              ∧ primary = false ∧ legacy = true) then
        1
      else
        s1
  | SyncOp.replaceSvr replaceRc whole, s =>
      if replaceRc = pcmk_ok ∧ whole = true then 0 else s

/-! ## cib_process_shutdown_req (based_messages.c lines 42-64) -/

/-- Observable outcome of `cib_process_shutdown_req`: the status code
and whether `terminate_cib` was invoked. -/
structure ShutdownOutcome where
  rc : Int
  terminated : Bool
  deriving Repr, DecidableEq

/-- Embedding of `cib_process_shutdown_req`: `isReply` says whether the
request carries the is-reply-to marker, `shutdownFlagged` is the value
of the process-wide `cib_shutdown_flag`. -/
def cib_process_shutdown_req (isReply : Bool) (shutdownFlagged : Bool) :
    ShutdownOutcome :=
  if isReply = false then
    { rc := pcmk_ok, terminated := false }
  else if shutdownFlagged = false then
    { rc := -EINVAL, terminated := false }
  else
    { rc := pcmk_ok, terminated := true }

/-! ## cib_process_readwrite (based_messages.c lines 77-109) -/

/-- Observable outcome of `cib_process_readwrite`: the status code, the
new `based_is_primary` value, and whether a role transition was logged
(the `crm_info` lines fire only on an actual change of role). -/
structure RwOutcome where
  rc : Int
  primary : Bool
  loggedTransition : Bool
  deriving Repr, DecidableEq

/-- Embedding of `cib_process_readwrite`: `op` is the request operation
name, `primary` the incoming `based_is_primary`. -/
def cib_process_readwrite (op : String) (primary : Bool) : RwOutcome :=
  if op = PCMK__CIB_REQUEST_IS_PRIMARY then
    { rc := if primary = true then pcmk_ok else -EPERM
      primary := primary
      loggedTransition := false }
  else if op = PCMK__CIB_REQUEST_PRIMARY then
    { rc := pcmk_ok, primary := true, loggedTransition := !primary }
  else if primary = true then
    { rc := pcmk_ok, primary := false, loggedTransition := true }
  else
    { rc := pcmk_ok, primary := false, loggedTransition := false }

/-! ## cib_process_upgrade_server (based_messages.c lines 186-280) -/

/-- Observable outcome of `cib_process_upgrade_server`: the status code,
whether the Phase-2 shortcut was taken because the request carried the
maximum-schema field, whether an upgrade instruction was broadcast and
with which schema version, whether the upgrade was applied directly via
the Phase-2 path, and whether (and with which code) a rejection reply
was sent to the origin peer. -/
structure UpgradeOutcome where
  rc : Int
  phase2 : Bool
  broadcastUpgrade : Bool
  broadcastVersion : Nat
  directApply : Bool
  rejectionSent : Bool
  rejectionRc : Int
  deriving Repr, DecidableEq

/-- Embedding of `cib_process_upgrade_server`. Oracle arguments:
`hasSchemaMax` is the presence of `F_CIB_SCHEMA_MAX` on the request,
`currentVersion` the schema version of the live document's
validate-with attribute (0 when absent), `validationRc` and
`newVersion` the status code and version determined by the external
`update_validation` primitive, `applyRc` the code the external
`cib_process_upgrade` primitive returns whenever it is invoked, and
`originFound` whether the origin peer is present in the membership
cache. -/
def cib_process_upgrade_server (hasSchemaMax : Bool) (currentVersion : Nat)
    (validationRc : Int) (newVersion : Nat) (legacy primary : Bool)
    (applyRc : Int) (originFound : Bool) : UpgradeOutcome :=
  if hasSchemaMax = true then
    { rc := applyRc
      phase2 := true
      broadcastUpgrade := false
      broadcastVersion := 0
      directApply := false
      rejectionSent := false
      rejectionRc := 0 }
  else
    let res : UpgradeOutcome :=
      if currentVersion < newVersion then
        if legacy = true ∧ primary = true then
          { rc := applyRc
            phase2 := false
            broadcastUpgrade := false
            broadcastVersion := newVersion
            directApply := true
            rejectionSent := false
            rejectionRc := 0 }
        else
          { rc := pcmk_ok
            phase2 := false
            broadcastUpgrade := true
            broadcastVersion := newVersion
            directApply := false
            rejectionSent := false
            rejectionRc := 0 }
      else if validationRc = pcmk_ok then
        { rc := -pcmk_err_schema_unchanged
          phase2 := false
          broadcastUpgrade := false
          broadcastVersion := 0
          directApply := false
          rejectionSent := false
          rejectionRc := 0 }
      else
        { rc := validationRc
          phase2 := false
          broadcastUpgrade := false
          broadcastVersion := 0
          directApply := false
          rejectionSent := false
          rejectionRc := 0 }
    if res.rc ≠ pcmk_ok ∧ originFound = true then
      { res with rejectionSent := true, rejectionRc := res.rc }
    else
      res

/-! ## Envelopes as partial attribute maps -/

/-- An XML message envelope, modelled as a partial map from attribute
name to attribute value. -/
abbrev FieldMap := String → Option String

/-- Embedding of `crm_xml_add`: set (or overwrite) one attribute. -/
def crm_xml_add (e : FieldMap) (k v : String) : FieldMap :=
  fun f => if f = k then some v else e f

/-- Embedding of `crm_xml_add` called with a possibly-NULL value, which
leaves the envelope unchanged when the value is NULL. -/
def crm_xml_add_opt (e : FieldMap) (k : String) (v : Option String) :
    FieldMap :=
  match v with
  | none => e
  | some s => crm_xml_add e k s

/-- Embedding of `xml_remove_prop`: delete one attribute. -/
def xml_remove_prop (e : FieldMap) (k : String) : FieldMap :=
  fun f => if f = k then none else e f

/-- The fixed field subset copied by `cib_msg_copy`
(based_messages.c lines 379-398). -/
def field_list : List String :=
  [PCMK__XA_T,
   PCMK__XA_CIB_CLIENTID,
   PCMK__XA_CIB_CALLOPT,
   PCMK__XA_CIB_CALLID,
   PCMK__XA_CIB_OP,
   PCMK__XA_CIB_ISREPLYTO,
   PCMK__XA_CIB_SECTION,
   PCMK__XA_CIB_HOST,
   PCMK__XA_CIB_RC,
   PCMK__XA_CIB_DELEGATED_FROM,
   PCMK__XA_CIB_OBJECT,
   PCMK__XA_CIB_OBJECT_TYPE,
   F_CIB_TIMEOUT,
   F_CIB_GLOBAL_UPDATE,
   PCMK__XA_CIB_CLIENTNAME,
   F_CIB_USER,
   F_CIB_NOTIFY_TYPE,
   F_CIB_NOTIFY_ACTIVATE]

/-- Embedding of `cib_msg_copy`: copy every field of the fixed subset
that is present on the message, and nothing else. -/
def cib_msg_copy (msg : FieldMap) : FieldMap :=
  fun f => if f ∈ field_list then msg f else none

/-! ## sync_our_cib (based_messages.c lines 416-462) -/

/-- The replace envelope built by `sync_our_cib` (lines 431-451), given
the inbound request, the broadcast flag and the digest of the local
document. -/
def sync_replace_envelope (request : FieldMap) (all : Bool)
    (digest : String) : FieldMap :=
  let host := request PCMK__XA_SRC
  let e1 := cib_msg_copy request
  let e2 := crm_xml_add_opt e1 PCMK__XA_CIB_ISREPLYTO host
  let e3 := if all = true then xml_remove_prop e2 PCMK__XA_CIB_HOST else e2
  let e4 := crm_xml_add e3 PCMK__XA_CIB_OP PCMK__CIB_REQUEST_REPLACE
  let e5 := crm_xml_add_opt e4 PCMK__XA_ORIGINAL_CIB_OP
      (request PCMK__XA_CIB_OP)
  let e6 := crm_xml_add e5 F_CIB_GLOBAL_UPDATE PCMK_VALUE_TRUE
  let e7 := crm_xml_add e6 PCMK_XA_CRM_FEATURE_SET CRM_FEATURE_SET
  crm_xml_add e7 PCMK__XA_DIGEST digest

/-- Observable outcome of `sync_our_cib`: the status code, whether a
cluster send was attempted, the replace envelope that was sent, and the
document attached as its payload. -/
structure SyncOutcome (Doc : Type) where
  rc : Int
  sendAttempted : Bool
  envelope : Option FieldMap
  payload : Option Doc

/-- Embedding of `sync_our_cib`. The document type is abstract;
`digestFn` is the external versioned-digest primitive, `the_cib` the
local document, `sendOk` the result of the cluster send. -/
def sync_our_cib {Doc : Type} (digestFn : Option Doc → String → String)
    (the_cib : Option Doc) (request : FieldMap) (all : Bool)
    (sendOk : Bool) : SyncOutcome Doc :=
  match the_cib with
  | none =>
    { rc := -EINVAL, sendAttempted := false, envelope := none, payload := none }
  | some d =>
    if all = false ∧ request PCMK__XA_SRC = none then
      { rc := -EINVAL, sendAttempted := false, envelope := none, payload := none }
    else
      { rc := if sendOk = true then pcmk_ok else -ENOTCONN
        sendAttempted := true
        envelope := some (sync_replace_envelope request all
            (digestFn (some d) CRM_FEATURE_SET))
        payload := some d }

/-! ## cib_process_ping (based_messages.c lines 137-177) -/

/-- Observable outcome of `cib_process_ping`: the fields of the ping
answer plus the state of the document reference after the call. -/
structure PingOutcome (Doc : Type) where
  featureSet : String
  digest : String
  seq : Option String
  cibAfter : Option Doc

/-- Embedding of `cib_process_ping`: builds the ping answer from the
feature set, the versioned digest of the current document, and the
sequence number echoed from the request; the document itself is only
read. -/
def cib_process_ping {Doc : Type} (digestFn : Option Doc → String → String)
    (the_cib : Option Doc) (seq : Option String) : PingOutcome Doc :=
  { featureSet := CRM_FEATURE_SET
    digest := digestFn the_cib CRM_FEATURE_SET
    seq := seq
    cibAfter := the_cib }

/-! ## cib_process_schemas (based_messages.c lines 491-532) -/

/-- A known schema: its version number and the files it serializes
(the schema file itself plus any dependency files). -/
structure SchemaEntry where
  version : Nat
  files : List String
  deriving Repr, DecidableEq

/-- Modelled from the spec: `xml_latest_schema` names the newest schema
known to the node (the schema registry lives outside src/); here it is
the largest known version number. -/
def xml_latest_schema (known : List SchemaEntry) : Nat :=
  List.foldl (fun m s => max m s.version) 0 known

/-- Modelled from the spec: `pcmk__schema_files_later_than` (repository
code outside src/) enumerates every known schema strictly newer than
the requested version, keeping the registry's ascending order. -/
def pcmk__schema_files_later_than (known : List SchemaEntry) (after : Nat) :
    List SchemaEntry :=
  List.filter (fun s => after < s.version) known

/-- Modelled from the spec: `pcmk__build_schema_xml_node` (repository
code outside src/) serializes one schema entry into the answer,
skipping files already included by an earlier entry, and records the
files it adds. -/
def pcmk__build_schema_xml_node (answer : List (Nat × List String))
    (s : SchemaEntry) (already : List String) :
    List (Nat × List String) × List String :=
  let fresh := List.filter (fun f => ¬ f ∈ already) s.files
  (answer ++ [(s.version, fresh)], already ++ fresh)

/-- The serialization loop of `cib_process_schemas` (lines 525-527):
fold `pcmk__build_schema_xml_node` over the schema list. -/
def build_schema_nodes (schemas : List SchemaEntry)
    (answer : List (Nat × List String)) (already : List String) :
    List (Nat × List String) × List String :=
  match schemas with
  | [] => (answer, already)
  | s :: rest =>
      let step := pcmk__build_schema_xml_node answer s already
      build_schema_nodes rest step.1 step.2

/-- Embedding of `cib_process_schemas`: `known` is the node's schema
registry; `data` is the embedded request payload (outer `none` = no
payload, inner `none` = payload without a version field). Returns the
status code and the answer's schema list, each entry carrying its
version and the files serialized for it. -/
def cib_process_schemas (known : List SchemaEntry)
    (data : Option (Option Nat)) : Int × List (Nat × List String) :=
  match data with
  | none => (-EPROTO, [])
  | some none => (-EPROTO, [])
  | some (some after_ver) =>
      if after_ver = xml_latest_schema known then
        (pcmk_ok, [])
      else
        let schemas := pcmk__schema_files_later_than known after_ver
        (pcmk_ok, (build_schema_nodes schemas [] []).1)

/-! ## Claim theorems -/

/-- C1: the Resync State counter follows exactly the specified
lifecycle: set to 1 by `send_sync_request`, incremented when a diff is
ignored while a resync is outstanding on a secondary, reset to 0 by a
successful whole-document replacement, and reset to 0 once it exceeds
the retry ceiling 5 — after which the diff is evaluated normally rather
than ignored. No other transition of the counter occurs. -/
theorem claim_C1_resync_lifecycle (op : SyncOp) (s : Nat) :
    syncStep op s = resyncLifecycleSpec op s ∧
    (∀ primary legacy diffRc, MAX_DIFF_RETRY < s →
      (cib_server_process_diff primary s legacy diffRc).ignored = false) := by
  constructor
  · cases op with
    | sendSyncRequest host => rfl
    | serverProcessDiff primary legacy diffRc =>
      simp only [syncStep, resyncLifecycleSpec, cib_server_process_diff,
        cib_server_interpret_diff_result, send_sync_request, MAX_DIFF_RETRY]
      split_ifs <;> simp_all
    | replaceSvr replaceRc whole => rfl
  · intro primary legacy diffRc h
    simp only [cib_server_process_diff, MAX_DIFF_RETRY] at h ⊢
    rw [if_pos h]
    simp only [ne_eq, not_true_eq_false, false_and, if_false,
      cib_server_interpret_diff_result]
    split_ifs <;> rfl

/-- Witness for C1 at a concrete state above the retry ceiling. -/
theorem claim_C1_witness :
    syncStep (SyncOp.serverProcessDiff false true pcmk_ok) 6 =
      resyncLifecycleSpec (SyncOp.serverProcessDiff false true pcmk_ok) 6 ∧
    (cib_server_process_diff false 6 true pcmk_ok).ignored = false := by
  have h := claim_C1_resync_lifecycle (SyncOp.serverProcessDiff false true pcmk_ok) 6
  exact ⟨h.1, h.2 false true pcmk_ok (by decide)⟩

/-- C2: while `based_is_primary` is true, `cib_server_process_diff`
never takes the ignore-diff-and-await-resync branch and always
delegates to `cib_process_diff`, whatever the Resync State counter. -/
theorem claim_C2_primary_always_delegates (s : Nat) (legacy : Bool)
    (diffRc : Int) :
    (cib_server_process_diff true s legacy diffRc).ignored = false ∧
    (cib_server_process_diff true s legacy diffRc).delegated = true := by
  simp only [cib_server_process_diff, cib_server_interpret_diff_result]
  split_ifs <;> simp_all

/-- C3: after delegating a diff, `cib_server_process_diff` interprets
the result exactly as the specification states: needs-resync on a
secondary discards the partial result, broadcasts a resync request and
returns needs-resync; needs-resync on a primary is downgraded to a
permanent diff-failed error with no resync; any other failure on a
secondary in legacy mode discards the partial result and broadcasts a
resync request; success, and any other failure on a primary, is
returned as-is with no resync side effect. -/
theorem claim_C3_diff_result_interpretation (primary legacy : Bool)
    (diffRc : Int) (s : Nat) :
    (diffRc = -pcmk_err_diff_resync → primary = false →
      cib_server_interpret_diff_result primary legacy diffRc s =
        { rc := -pcmk_err_diff_resync, sync := 1, ignored := false,
          delegated := true, resyncRequested := true,
          resultDiscarded := true }) ∧
    (diffRc = -pcmk_err_diff_resync → primary = true →
      cib_server_interpret_diff_result primary legacy diffRc s =
        { rc := -pcmk_err_diff_failed, sync := s, ignored := false,
          delegated := true, resyncRequested := false,
          resultDiscarded := false }) ∧
    (diffRc ≠ pcmk_ok → diffRc ≠ -pcmk_err_diff_resync → primary = false →
      legacy = true →
      cib_server_interpret_diff_result primary legacy diffRc s =
        { rc := diffRc, sync := 1, ignored := false, delegated := true,
          resyncRequested := true, resultDiscarded := true }) ∧
    ((diffRc = pcmk_ok ∨ (primary = true ∧ diffRc ≠ -pcmk_err_diff_resync)) →
      cib_server_interpret_diff_result primary legacy diffRc s =
        { rc := diffRc, sync := s, ignored := false, delegated := true,
          resyncRequested := false, resultDiscarded := false }) := by
  refine ⟨?_, ?_, ?_, ?_⟩
  · intro h1 h2
    simp [cib_server_interpret_diff_result, h1, h2, send_sync_request]
  · intro h1 h2
    simp [cib_server_interpret_diff_result, h1, h2]
  · intro h1 h2 h3 h4
    simp [cib_server_interpret_diff_result, h1, h2, h3, h4,
      send_sync_request]
  · intro h
    rcases h with h | ⟨hp, hr⟩
    · simp [cib_server_interpret_diff_result, h, pcmk_ok,
        pcmk_err_diff_resync]
    · simp [cib_server_interpret_diff_result, hp, hr]

/-- Witness for C3 in the needs-resync-on-secondary case. -/
theorem claim_C3_witness :
    cib_server_interpret_diff_result false true (-pcmk_err_diff_resync) 3 =
      { rc := -pcmk_err_diff_resync, sync := 1, ignored := false,
        delegated := true, resyncRequested := true,
        resultDiscarded := true } :=
  (claim_C3_diff_result_interpretation false true (-pcmk_err_diff_resync) 3).1
    rfl rfl

/-- C4 counterexample: with legacy mode active and the local node
primary, a newer reachable schema triggers the direct Phase-2 apply
(exactly one action, as claimed), but when that apply fails the
handler's result is the apply's failure code, not success — refuting
the claim that the result of Phase 1 is success whenever a newer
reachable schema was determined. -/
theorem claim_C4_counterexample :
    (cib_process_upgrade_server false 1 pcmk_ok 2 true true
        (-pcmk_err_schema_validation) true).directApply = true ∧
    (cib_process_upgrade_server false 1 pcmk_ok 2 true true
        (-pcmk_err_schema_validation) true).broadcastUpgrade = false ∧
    (cib_process_upgrade_server false 1 pcmk_ok 2 true true
        (-pcmk_err_schema_validation) true).rc ≠ pcmk_ok := by
  decide

/-- C4 (amended): in Phase 1, whenever validation determines a newer
reachable schema version, the handler performs exactly one of a cluster
broadcast of the upgrade instruction carrying that version or, in
legacy+primary mode, a direct Phase-2 apply of that version — never
both, never neither; the result is success in the broadcast case and
the Phase-2 apply's result in the direct-apply case. On any non-success
outcome the origin peer, if found in the membership cache, is sent a
reply carrying the numeric rejection code; if not found, no reply is
sent and the code is still returned. -/
theorem claim_C4_amended_upgrade_phase1 (currentVersion newVersion : Nat)
    (validationRc : Int) (legacy primary : Bool) (applyRc : Int)
    (originFound : Bool) :
    (currentVersion < newVersion →
      ((cib_process_upgrade_server false currentVersion validationRc
          newVersion legacy primary applyRc originFound).directApply = true ↔
        (legacy = true ∧ primary = true)) ∧
      ((cib_process_upgrade_server false currentVersion validationRc
          newVersion legacy primary applyRc originFound).broadcastUpgrade
            = true ↔
        ¬(legacy = true ∧ primary = true)) ∧
      (cib_process_upgrade_server false currentVersion validationRc
          newVersion legacy primary applyRc originFound).broadcastVersion
        = newVersion ∧
      (cib_process_upgrade_server false currentVersion validationRc
          newVersion legacy primary applyRc originFound).rc
        = (if legacy = true ∧ primary = true then applyRc else pcmk_ok)) ∧
    ((cib_process_upgrade_server false currentVersion validationRc
        newVersion legacy primary applyRc originFound).rc ≠ pcmk_ok →
      ((cib_process_upgrade_server false currentVersion validationRc
          newVersion legacy primary applyRc originFound).rejectionSent = true
        ↔ originFound = true) ∧
      ((cib_process_upgrade_server false currentVersion validationRc
          newVersion legacy primary applyRc originFound).rejectionSent = true →
        (cib_process_upgrade_server false currentVersion validationRc
            newVersion legacy primary applyRc originFound).rejectionRc =
          (cib_process_upgrade_server false currentVersion validationRc
              newVersion legacy primary applyRc originFound).rc)) := by
  simp only [cib_process_upgrade_server]
  split_ifs <;> simp_all

/-- Witness for the amended C4 in the broadcast case. -/
theorem claim_C4_witness :
    (cib_process_upgrade_server false 1 pcmk_ok 2 false false pcmk_ok
        true).broadcastVersion = 2 := by
  have h := claim_C4_amended_upgrade_phase1 1 2 pcmk_ok false false pcmk_ok
    true
  exact (h.1 (by decide)).2.2.1

/-- C10: when validation determines a strictly newer schema version,
the handler's outcome is independent of the code the validation
primitive returned — a validation failure is masked; it is surfaced
(returned as the handler's result) only when no newer schema version
was determined. -/
theorem claim_C10_validation_rc_masked (currentVersion newVersion : Nat)
    (validationRc validationRc2 : Int) (legacy primary : Bool)
    (applyRc : Int) (originFound : Bool) :
    (currentVersion < newVersion →
      cib_process_upgrade_server false currentVersion validationRc
          newVersion legacy primary applyRc originFound =
        cib_process_upgrade_server false currentVersion validationRc2
          newVersion legacy primary applyRc originFound) ∧
    (¬ currentVersion < newVersion → validationRc ≠ pcmk_ok →
      (cib_process_upgrade_server false currentVersion validationRc
          newVersion legacy primary applyRc originFound).rc
        = validationRc) := by
  constructor
  · intro h
    simp only [cib_process_upgrade_server]
    split_ifs <;> simp_all
  · intro h hrc
    simp only [cib_process_upgrade_server]
    split_ifs <;> simp_all

/-- Witness for C10: the outcome at a concrete input is the same for
two different validation failure codes. -/
theorem claim_C10_witness :
    cib_process_upgrade_server false 1 (-pcmk_err_schema_validation) 2
        false false pcmk_ok true =
      cib_process_upgrade_server false 1 (-pcmk_err_schema_unchanged) 2
        false false pcmk_ok true := by
  have h := claim_C10_validation_rc_masked 1 2
    (-pcmk_err_schema_validation) (-pcmk_err_schema_unchanged) false false
    pcmk_ok true
  exact h.1 (by decide)

/-- C5: role-change handling — the is-primary query succeeds iff the
node is primary and returns permission-denied otherwise, with no state
change; become-primary sets the role, succeeds, and is idempotent with
no transition log on the second call; any other operation demotes a
primary and leaves a secondary unchanged; every non-query operation
returns success. -/
theorem claim_C5_readwrite (op : String) (primary : Bool) :
    (op = PCMK__CIB_REQUEST_IS_PRIMARY →
      ((cib_process_readwrite op primary).rc = pcmk_ok ↔ primary = true) ∧
      (primary = false → (cib_process_readwrite op primary).rc = -EPERM) ∧
      (cib_process_readwrite op primary).primary = primary) ∧
    (op = PCMK__CIB_REQUEST_PRIMARY →
      (cib_process_readwrite op primary).primary = true ∧
      (cib_process_readwrite op primary).rc = pcmk_ok ∧
      (primary = true →
        (cib_process_readwrite op primary).loggedTransition = false) ∧
      cib_process_readwrite op (cib_process_readwrite op primary).primary =
        { rc := pcmk_ok, primary := true, loggedTransition := false }) ∧
    (op ≠ PCMK__CIB_REQUEST_IS_PRIMARY → op ≠ PCMK__CIB_REQUEST_PRIMARY →
      (cib_process_readwrite op primary).primary = false ∧
      (cib_process_readwrite op primary).rc = pcmk_ok) ∧
    (op ≠ PCMK__CIB_REQUEST_IS_PRIMARY →
      (cib_process_readwrite op primary).rc = pcmk_ok) := by
  simp only [cib_process_readwrite]
  split_ifs <;>
    simp_all [pcmk_ok, EPERM, PCMK__CIB_REQUEST_IS_PRIMARY,
      PCMK__CIB_REQUEST_PRIMARY]

/-- Witness for C5: a second become-primary call while already primary
succeeds without a transition log. -/
theorem claim_C5_witness :
    cib_process_readwrite PCMK__CIB_REQUEST_PRIMARY
        (cib_process_readwrite PCMK__CIB_REQUEST_PRIMARY false).primary =
      { rc := pcmk_ok, primary := true, loggedTransition := false } :=
  ((claim_C5_readwrite PCMK__CIB_REQUEST_PRIMARY false).2.1 rfl).2.2.2

/-- C6: a shutdown request that is not a reply is accepted with success
and no local action; a shutdown reply without a prior local shutdown
request fails with an invalid-state error and does not terminate; a
shutdown reply after a local request triggers termination and returns
success. -/
theorem claim_C6_shutdown (isReply shutdownFlagged : Bool) :
    (isReply = false →
      cib_process_shutdown_req isReply shutdownFlagged =
        { rc := pcmk_ok, terminated := false }) ∧
    (isReply = true → shutdownFlagged = false →
      cib_process_shutdown_req isReply shutdownFlagged =
        { rc := -EINVAL, terminated := false }) ∧
    (isReply = true → shutdownFlagged = true →
      cib_process_shutdown_req isReply shutdownFlagged =
        { rc := pcmk_ok, terminated := true }) := by
  simp only [cib_process_shutdown_req]
  split_ifs <;> simp_all

/-- Witness for C6: a reply without a prior local shutdown request
fails with the invalid-state error. -/
theorem claim_C6_witness :
    cib_process_shutdown_req true false =
      { rc := -EINVAL, terminated := false } :=
  (claim_C6_shutdown true false).2.1 rfl rfl

/-- C8: `cib_process_ping` is side-effect-free and deterministic — it
never mutates the current document, the digest is a function of the
document alone, and the answer carries the local feature set, the
digest, and the echoed sequence number. -/
theorem claim_C8_ping_pure {Doc : Type}
    (digestFn : Option Doc → String → String) (the_cib : Option Doc)
    (seq seq2 : Option String) :
    (cib_process_ping digestFn the_cib seq).cibAfter = the_cib ∧
    (cib_process_ping digestFn the_cib seq).featureSet = CRM_FEATURE_SET ∧
    (cib_process_ping digestFn the_cib seq).seq = seq ∧
    (cib_process_ping digestFn the_cib seq).digest =
      digestFn the_cib CRM_FEATURE_SET ∧
    (cib_process_ping digestFn the_cib seq).digest =
      (cib_process_ping digestFn the_cib seq2).digest :=
  ⟨rfl, rfl, rfl, rfl, rfl⟩

/-- Looking up any field other than the seven that `sync_our_cib`
overwrites or removes passes through to the copied field subset. -/
theorem sync_replace_envelope_passthrough (request : FieldMap) (all : Bool)
    (digest f : String)
    (h1 : f ≠ PCMK__XA_CIB_ISREPLYTO) (h2 : f ≠ PCMK__XA_CIB_HOST)
    (h3 : f ≠ PCMK__XA_CIB_OP) (h4 : f ≠ PCMK__XA_ORIGINAL_CIB_OP)
    (h5 : f ≠ F_CIB_GLOBAL_UPDATE) (h6 : f ≠ PCMK_XA_CRM_FEATURE_SET)
    (h7 : f ≠ PCMK__XA_DIGEST) :
    sync_replace_envelope request all digest f = cib_msg_copy request f := by
  rcases hOp : request PCMK__XA_CIB_OP with _ | vop <;>
    rcases hSrc : request PCMK__XA_SRC with _ | vsrc <;>
    cases all <;>
    simp [sync_replace_envelope, crm_xml_add, crm_xml_add_opt,
      xml_remove_prop, hOp, hSrc, h1, h2, h3, h4, h5, h6, h7]

/-- C7: `sync_our_cib` fails with an invalid-argument error and sends
nothing when the local document is null or when not broadcasting and
the request has no source host; otherwise it sends a replace envelope
built from the copied field subset with the destination-host field
removed when broadcasting, carrying the global-update marker, the
feature-set string, the versioned digest of the document, and the full
document as payload, and it returns a transport-failure error exactly
when the cluster send fails. -/
theorem claim_C7_sync_our_cib {Doc : Type}
    (digestFn : Option Doc → String → String) (the_cib : Option Doc)
    (request : FieldMap) (all sendOk : Bool) :
    (the_cib = none →
      (sync_our_cib digestFn the_cib request all sendOk).rc = -EINVAL ∧
      (sync_our_cib digestFn the_cib request all sendOk).sendAttempted
        = false) ∧
    (all = false → request PCMK__XA_SRC = none →
      (sync_our_cib digestFn the_cib request all sendOk).rc = -EINVAL ∧
      (sync_our_cib digestFn the_cib request all sendOk).sendAttempted
        = false) ∧
    (∀ d, the_cib = some d → (all = true ∨ request PCMK__XA_SRC ≠ none) →
      (sync_our_cib digestFn the_cib request all sendOk).payload = some d ∧
      (sync_our_cib digestFn the_cib request all sendOk).sendAttempted
        = true ∧
      (sync_our_cib digestFn the_cib request all sendOk).envelope =
        some (sync_replace_envelope request all
          (digestFn (some d) CRM_FEATURE_SET)) ∧
      ((sync_our_cib digestFn the_cib request all sendOk).rc = -ENOTCONN ↔
        sendOk = false) ∧
      (sendOk = true →
        (sync_our_cib digestFn the_cib request all sendOk).rc = pcmk_ok)) ∧
    (∀ digest,
      sync_replace_envelope request all digest PCMK__XA_CIB_OP =
        some PCMK__CIB_REQUEST_REPLACE ∧
      (all = true →
        sync_replace_envelope request all digest PCMK__XA_CIB_HOST
          = none) ∧
      sync_replace_envelope request all digest F_CIB_GLOBAL_UPDATE =
        some PCMK_VALUE_TRUE ∧
      sync_replace_envelope request all digest PCMK_XA_CRM_FEATURE_SET =
        some CRM_FEATURE_SET ∧
      sync_replace_envelope request all digest PCMK__XA_DIGEST =
        some digest ∧
      (∀ f, f ∈ field_list → f ≠ PCMK__XA_CIB_OP → f ≠ PCMK__XA_CIB_HOST →
        f ≠ PCMK__XA_CIB_ISREPLYTO → f ≠ F_CIB_GLOBAL_UPDATE →
        sync_replace_envelope request all digest f = request f)) := by
  refine ⟨?_, ?_, ?_, ?_⟩
  · intro h
    subst h
    exact ⟨rfl, rfl⟩
  · intro hall hsrc
    cases the_cib with
    | none => exact ⟨rfl, rfl⟩
    | some d =>
      simp [sync_our_cib, hall, hsrc]
  · intro d hd hcond
    subst hd
    have hc : ¬(all = false ∧ request PCMK__XA_SRC = none) := by
      rintro ⟨ha, hs⟩
      rcases hcond with h | h
      · rw [ha] at h
        cases h
      · exact h hs
    simp only [sync_our_cib]
    rw [if_neg hc]
    refine ⟨rfl, rfl, rfl, ?_, ?_⟩
    · cases sendOk <;> simp [pcmk_ok, ENOTCONN]
    · intro h
      simp [h]
  · intro digest
    refine ⟨?_, ?_, ?_, ?_, ?_, ?_⟩
    · rcases hOp : request PCMK__XA_CIB_OP with _ | vop <;>
        rcases hSrc : request PCMK__XA_SRC with _ | vsrc <;>
        cases all <;>
        simp +decide [sync_replace_envelope, crm_xml_add, crm_xml_add_opt,
          xml_remove_prop, hOp, hSrc]
    · intro ha
      subst ha
      rcases hOp : request PCMK__XA_CIB_OP with _ | vop <;>
        rcases hSrc : request PCMK__XA_SRC with _ | vsrc <;>
        simp +decide [sync_replace_envelope, crm_xml_add, crm_xml_add_opt,
          xml_remove_prop, hOp, hSrc]
    · rcases hOp : request PCMK__XA_CIB_OP with _ | vop <;>
        rcases hSrc : request PCMK__XA_SRC with _ | vsrc <;>
        cases all <;>
        simp +decide [sync_replace_envelope, crm_xml_add, crm_xml_add_opt,
          xml_remove_prop, hOp, hSrc]
    · rcases hOp : request PCMK__XA_CIB_OP with _ | vop <;>
        rcases hSrc : request PCMK__XA_SRC with _ | vsrc <;>
        cases all <;>
        simp +decide [sync_replace_envelope, crm_xml_add, crm_xml_add_opt,
          xml_remove_prop, hOp, hSrc]
    · rcases hOp : request PCMK__XA_CIB_OP with _ | vop <;>
        rcases hSrc : request PCMK__XA_SRC with _ | vsrc <;>
        cases all <;>
        simp +decide [sync_replace_envelope, crm_xml_add, crm_xml_add_opt,
          xml_remove_prop, hOp, hSrc]
    · intro f hf hOp hHost hReply hGu
      have h4 : f ≠ PCMK__XA_ORIGINAL_CIB_OP := by
        intro h
        subst h
        revert hf
        decide
      have h6 : f ≠ PCMK_XA_CRM_FEATURE_SET := by
        intro h
        subst h
        revert hf
        decide
      have h7 : f ≠ PCMK__XA_DIGEST := by
        intro h
        subst h
        revert hf
        decide
      rw [sync_replace_envelope_passthrough request all digest f hReply
        hHost hOp h4 hGu h6 h7]
      simp [cib_msg_copy, hf]

/-- Witness for C7: broadcasting with a non-null document attaches the
document as the payload. -/
theorem claim_C7_witness :
    (sync_our_cib (fun _ _ => CRM_FEATURE_SET) (some 0) (fun _ => none)
      true true : SyncOutcome Nat).payload = some 0 := by
  have h := claim_C7_sync_our_cib (fun _ _ => CRM_FEATURE_SET)
    (some (0 : Nat)) (fun _ => none) true true
  exact (h.2.2.1 0 rfl (Or.inl rfl)).1

/-- The fold that computes the latest schema version dominates its
starting accumulator. -/
theorem schema_foldl_max_init (l : List SchemaEntry) (a : Nat) :
    a ≤ List.foldl (fun m s => max m s.version) a l := by
  induction l generalizing a with
  | nil => exact Nat.le_refl a
  | cons x xs ih =>
    exact Nat.le_trans (Nat.le_max_left a x.version) (ih (max a x.version))

/-- A member's version is at most the running-maximum fold, whatever
the starting accumulator. -/
theorem schema_mem_le_foldl_max (l : List SchemaEntry) :
    ∀ (a : Nat) (s : SchemaEntry), s ∈ l →
      s.version ≤ List.foldl (fun m t => max m t.version) a l := by
  induction l with
  | nil =>
    intro a s hs
    cases hs
  | cons x xs ih =>
    intro a s hs
    rw [List.foldl_cons]
    rcases List.mem_cons.mp hs with rfl | h
    · exact Nat.le_trans (Nat.le_max_right a s.version)
        (schema_foldl_max_init xs (max a s.version))
    · exact ih (max a x.version) s h

/-- Every known schema version is at most the latest known version. -/
theorem schema_version_le_latest (l : List SchemaEntry) (s : SchemaEntry)
    (hs : s ∈ l) : s.version ≤ xml_latest_schema l := by
  rw [xml_latest_schema]
  exact schema_mem_le_foldl_max l 0 s hs

/-- The versions serialized by the schema loop are the versions of the
schemas given to it, in order. -/
theorem build_schema_nodes_versions (schemas : List SchemaEntry)
    (answer : List (Nat × List String)) (already : List String) :
    ((build_schema_nodes schemas answer already).1).map Prod.fst =
      answer.map Prod.fst ++ schemas.map SchemaEntry.version := by
  induction schemas generalizing answer already with
  | nil => simp [build_schema_nodes]
  | cons s rest ih =>
    simp [build_schema_nodes, pcmk__build_schema_xml_node, ih]

/-- The schema loop never serializes the same file twice: if the files
already serialized are distinct, recorded in the dedup accumulator, and
that accumulator is itself duplicate-free, the final serialized file
list is duplicate-free. -/
theorem build_schema_nodes_files_nodup (schemas : List SchemaEntry)
    (answer : List (Nat × List String)) (already : List String)
    (hfiles : ∀ s ∈ schemas, s.files.Nodup)
    (hans : ((answer.map Prod.snd).flatten).Nodup)
    (hsub : ∀ x ∈ (answer.map Prod.snd).flatten, x ∈ already)
    (halready : already.Nodup) :
    ((((build_schema_nodes schemas answer already).1).map
        Prod.snd).flatten).Nodup := by
  induction schemas generalizing answer already with
  | nil => simpa [build_schema_nodes] using hans
  | cons s rest ih =>
    simp only [build_schema_nodes, pcmk__build_schema_xml_node]
    have hfresh : (List.filter (fun f => ¬ f ∈ already) s.files).Nodup :=
      List.Nodup.filter _ (hfiles s (List.mem_cons_self s rest))
    have hfreshNotIn : ∀ x ∈ List.filter (fun f => ¬ f ∈ already) s.files,
        ¬ x ∈ already := by
      intro x hx
      have := List.of_mem_filter hx
      simpa using this
    apply ih
    · intro t ht
      exact hfiles t (List.mem_cons_of_mem s ht)
    · simp only [List.map_append, List.flatten_append, List.map_cons,
        List.map_nil, List.flatten_cons, List.flatten_nil,
        List.append_nil]
      exact hans.append hfresh
        (fun x hx hx2 => hfreshNotIn x hx2 (hsub x hx))
    · intro x hx
      simp only [List.map_append, List.flatten_append, List.map_cons,
        List.map_nil, List.flatten_cons, List.flatten_nil,
        List.append_nil, List.mem_append] at hx
      rcases hx with hx | hx
      · exact List.mem_append.mpr (Or.inl (hsub x hx))
      · exact List.mem_append.mpr (Or.inr hx)
    · exact halready.append hfresh
        (fun x hx hx2 => hfreshNotIn x hx2 hx)

/-- C9: schema enumeration fails with a protocol error when the request
has no embedded payload or no version field; requesting the latest
known version yields success with an empty list; otherwise it yields
success with exactly the schemas newer than the requested version, in
ascending version order, with no file serialized twice. -/
theorem claim_C9_schemas (known : List SchemaEntry)
    (data : Option (Option Nat))
    (hsorted : known.Pairwise (fun a b => a.version < b.version))
    (hfiles : ∀ s ∈ known, s.files.Nodup) :
    (data = none → (cib_process_schemas known data).1 = -EPROTO) ∧
    (data = some none → (cib_process_schemas known data).1 = -EPROTO) ∧
    (∀ v, data = some (some v) →
      (cib_process_schemas known data).1 = pcmk_ok ∧
      (v = xml_latest_schema known →
        (cib_process_schemas known data).2 = []) ∧
      ((cib_process_schemas known data).2.map Prod.fst =
        (List.filter (fun s => v < s.version) known).map
          SchemaEntry.version) ∧
      (((cib_process_schemas known data).2.map Prod.fst).Pairwise
        (· < ·)) ∧
      ((((cib_process_schemas known data).2.map Prod.snd).flatten).Nodup)) := by
  refine ⟨?_, ?_, ?_⟩
  · intro h
    subst h
    rfl
  · intro h
    subst h
    rfl
  · intro v h
    subst h
    simp only [cib_process_schemas]
    split_ifs with hv
    · refine ⟨rfl, fun _ => rfl, ?_, by simp, by simp⟩
      have hnil : List.filter (fun s => decide (v < s.version)) known = [] := by
        rw [List.filter_eq_nil_iff]
        intro s hs
        have := schema_version_le_latest known s hs
        simp only [decide_eq_true_eq]
        omega
      simp [hnil]
    · refine ⟨rfl, fun hlat => absurd hlat hv, ?_, ?_, ?_⟩
      · simpa [pcmk__schema_files_later_than] using
          build_schema_nodes_versions
            (List.filter (fun s => decide (v < s.version)) known) [] []
      · have h1 : ((build_schema_nodes
            (pcmk__schema_files_later_than known v) [] []).1).map Prod.fst =
            (List.filter (fun s => decide (v < s.version)) known).map
              SchemaEntry.version := by
          simpa [pcmk__schema_files_later_than] using
            build_schema_nodes_versions
              (List.filter (fun s => decide (v < s.version)) known) [] []
        rw [h1]
        exact List.pairwise_map.mpr (hsorted.filter _)
      · apply build_schema_nodes_files_nodup
        · intro s hs
          exact hfiles s (List.mem_of_mem_filter hs)
        · simp
        · simp
        · exact List.nodup_nil

/-- Witness for C9 on a concrete two-schema registry. -/
theorem claim_C9_witness :
    (cib_process_schemas
      [{ version := 1, files := [PCMK__XA_T] },
       { version := 2, files := [PCMK__XA_SRC, PCMK__XA_T] }]
      (some (some 0))).1 = pcmk_ok := by
  have h := claim_C9_schemas
    [{ version := 1, files := [PCMK__XA_T] },
     { version := 2, files := [PCMK__XA_SRC, PCMK__XA_T] }]
    (some (some 0)) (by decide) (by decide)
  exact (h.2.2 0 rfl).1
